import Mathlib

/-!
Verification development for the Brixel UI Task SDK.

The development shallowly embeds the two source modules the claims are
about:

* `src/useBrixelTask.ts` — the session state machine of the embedded
  task: the `handleMessage` listener for host → task messages
  (`BRIXEL_INIT`, `BRIXEL_UPDATE_INPUTS`, `BRIXEL_DESTROY`) and the
  outbound operations `complete`, `cancel`, `setHeight`, `log`.
* `src/executeTask.ts` — construction of the HTTP request for
  `executeTask` (`getApiBaseUrl`, headers, credential mode) and the
  normalization of the fetch outcome into an `ExecuteTaskResponse`.

Messages arrive over `postMessage`, so the handler sees arbitrary
structured-clone data, not values of the TypeScript types.  We therefore
model channel data with a dynamic value type `JSVal` and embed the
JavaScript truthiness tests, `typeof` checks, property accesses and
object-spread merge that the source performs on it.  Property access on
`null`/`undefined` and method calls on values lacking the method throw,
which the embedding makes explicit with `Except Thrown`.
-/

namespace BrixelSpec

/-- Structured-clone data as delivered over the `postMessage` channel
(functions cannot cross the channel, so plain data suffices). -/
inductive JSVal where
  | vNull
  | vUndefined
  | vBool (b : Bool)
  | vNum (n : Int)
  | vStr (s : String)
  | vObj (fields : List (String × JSVal))

/-- JavaScript truthiness of a value. -/
def truthy : JSVal → Bool
  | .vNull => false
  | .vUndefined => false
  | .vBool b => b
  | .vNum n => n != 0
  | .vStr s => s != ""
  | .vObj _ => true

/-- JavaScript `typeof` (note `typeof null = "object"`). -/
def jsTypeof : JSVal → String
  | .vNull => "object"
  | .vUndefined => "undefined"
  | .vBool _ => "boolean"
  | .vNum _ => "number"
  | .vStr _ => "string"
  | .vObj _ => "object"

/-- First-match lookup in a string-keyed association list. -/
def lookupKey {α : Type} : List (String × α) → String → Option α
  | [], _ => none
  | (k, v) :: rest, key => if k = key then some v else lookupKey rest key

/-- `v` is `null` or `undefined` (the values property access throws on). -/
def isNullish : JSVal → Bool
  | .vNull => true
  | .vUndefined => true
  | _ => false

/-- Non-throwing property read `v.k`, used where the source has already
ruled out `null`/`undefined`: a missing property (or a primitive
receiver) reads as `undefined`. -/
def objGet (v : JSVal) (k : String) : JSVal :=
  match v with
  | .vObj fs => (lookupKey fs k).getD .vUndefined
  | _ => .vUndefined

/-- A thrown JavaScript error, identified by its message. -/
inductive Thrown where
  | err (message : String)

/-- `ps` is a prefix of `cs`, character by character. -/
def charsPrefixOf : List Char → List Char → Bool
  | [], _ => true
  | _ :: _, [] => false
  | p :: ps, c :: cs => p == c && charsPrefixOf ps cs

/-- The JavaScript string method `s.startsWith(pre)`, computed on the
character lists so that it evaluates definitionally. -/
def strStartsWith (s pre : String) : Bool :=
  charsPrefixOf pre.toList s.toList

/-- The task-status enum of `types.ts`. -/
inductive TaskStatus where
  | initializing
  | ready
  | completed
  | cancelled
  | error
deriving DecidableEq

/-- The state owned by `useBrixelTask`: the `useState` cells
(`inputs`, `context`, `status`, `renderMode`, `runId`) and the
`hasCompleted` ref.  Cells initialized to `null` hold `vNull`. -/
structure TaskState where
  inputs : JSVal
  context : JSVal
  status : TaskStatus
  renderMode : JSVal
  runId : JSVal
  hasCompleted : Bool

/-- The initial state of the hook: all cells `null`, status
`initializing`, `hasCompleted` false. -/
def initialState : TaskState :=
  { inputs := .vNull, context := .vNull, status := .initializing,
    renderMode := .vNull, runId := .vNull, hasCompleted := false }

/-- Outbound (task → host) envelopes passed to `postToParent`. -/
inductive OutMessage where
  | ready (version : String)
  | complete (runId : JSVal) (output : JSVal)
  | cancel (runId : JSVal) (reason : JSVal)
  | resize (runId : JSVal) (height : JSVal)
  | log (runId : JSVal) (level : String) (message : String) (data : JSVal)

/-- Invocations of the callbacks registered in `UseBrixelTaskOptions`,
with the argument they receive. -/
inductive CallbackEvent where
  | inputsUpdate (payload : JSVal)
  | destroy

/-- Result of one state-machine step: the new state, the envelopes
posted to the parent, and the callbacks invoked, in order. -/
structure StepResult where
  state : TaskState
  sent : List OutMessage
  callbacks : List CallbackEvent

/-- `complete(output)` from `useBrixelTask.ts`: ignore when
`hasCompleted` is set; fail locally (console.error, nothing sent) when
`runId` is falsy; otherwise set `hasCompleted`, set status `completed`
and post `BRIXEL_COMPLETE` with the current `runId`. -/
def complete (s : TaskState) (output : JSVal) : StepResult :=
  if s.hasCompleted then ⟨s, [], []⟩
  else if !(truthy s.runId) then ⟨s, [], []⟩
  else ⟨{ s with hasCompleted := true, status := .completed },
        [.complete s.runId output], []⟩

/-- `cancel(reason?)` from `useBrixelTask.ts`: same guards as
`complete`, posts `BRIXEL_CANCEL`, sets status `cancelled`. -/
def cancel (s : TaskState) (reason : JSVal) : StepResult :=
  if s.hasCompleted then ⟨s, [], []⟩
  else if !(truthy s.runId) then ⟨s, [], []⟩
  else ⟨{ s with hasCompleted := true, status := .cancelled },
        [.cancel s.runId reason], []⟩

/-- `setHeight(height)` from `useBrixelTask.ts`: no-op when `runId` is
falsy, otherwise posts `BRIXEL_RESIZE`; not gated by `hasCompleted`. -/
def setHeight (s : TaskState) (height : JSVal) : StepResult :=
  if !(truthy s.runId) then ⟨s, [], []⟩
  else ⟨s, [.resize s.runId height], []⟩

/-- `log(level, message, data?)` from `useBrixelTask.ts`: no-op when
`runId` is falsy, otherwise posts `BRIXEL_LOG`. -/
def log (s : TaskState) (level : String) (message : String) (data : JSVal) :
    StepResult :=
  if !(truthy s.runId) then ⟨s, [], []⟩
  else ⟨s, [.log s.runId level message data], []⟩

/-- JavaScript object spread `\x7b ...prev, ...updated \x7d` restricted
to the data of `JSVal`: own fields of a non-object spread to nothing. -/
def ownFields : JSVal → List (String × JSVal)
  | .vObj fs => fs
  | _ => []

/-- Fields of `prev` with values overridden by `updated` where the key
occurs there (spread keeps the original position of repeated keys). -/
def overrideFields (updated : List (String × JSVal)) :
    List (String × JSVal) → List (String × JSVal)
  | [] => []
  | (k, v) :: rest =>
      (k, match lookupKey updated k with
          | some w => w
          | none => v) :: overrideFields updated rest

/-- Fields of `updated` whose key does not occur in `prev` (appended
after the keys of `prev` by the spread). -/
def freshFields (prev updated : List (String × JSVal)) :
    List (String × JSVal) :=
  updated.filter fun kv => (lookupKey prev kv.1).isNone

/-- Key-level result of the object spread. -/
def mergeFields (prev updated : List (String × JSVal)) :
    List (String × JSVal) :=
  overrideFields updated prev ++ freshFields prev updated

/-- The object-spread merge on values. -/
def spreadMerge (prev updated : JSVal) : JSVal :=
  .vObj (mergeFields (ownFields prev) (ownFields updated))

/-- `handleMessage` from `useBrixelTask.ts`, applied to the raw
`event.data`.  Mirrors the source: the structural guard
(falsy / non-object / falsy `type` ⇒ return), the
`message.type.startsWith` call — which throws a `TypeError` when `type`
is a truthy non-string —, and the three `switch` cases; an unlisted
`BRIXEL_`-prefixed type falls through the `switch` doing nothing.
Destructuring `message.payload` throws when the payload is nullish. -/
def handleMessage (s : TaskState) (m : JSVal) : Except Thrown StepResult :=
  if !(truthy m) || jsTypeof m != "object" || !(truthy (objGet m "type")) then
    .ok ⟨s, [], []⟩
  else
    match objGet m "type" with
    | .vStr ty =>
      if !(strStartsWith ty "BRIXEL_") then .ok ⟨s, [], []⟩
      else if ty = "BRIXEL_INIT" then
        let pl := objGet m "payload"
        if isNullish pl then .error (.err "cannot destructure message.payload")
        else
          .ok ⟨{ s with runId := objGet pl "runId",
                        inputs := objGet pl "inputs",
                        context := objGet pl "context",
                        renderMode := objGet pl "renderMode",
                        status := .ready,
                        hasCompleted := false }, [], []⟩
      else if ty = "BRIXEL_UPDATE_INPUTS" then
        let pl := objGet m "payload"
        if isNullish pl then .error (.err "cannot destructure message.payload")
        else
          let updated := objGet pl "inputs"
          .ok ⟨{ s with inputs :=
                  if truthy s.inputs then spreadMerge s.inputs updated
                  else updated },
               [], [.inputsUpdate updated]⟩
      else if ty = "BRIXEL_DESTROY" then
        .ok ⟨s, [], [.destroy]⟩
      else
        .ok ⟨s, [], []⟩
    | _ => .error (.err "message.type.startsWith is not a function")

/-- A well-formed `BRIXEL_INIT` message. -/
def initMsg (rid inp ctx rm : JSVal) : JSVal :=
  .vObj [("type", .vStr "BRIXEL_INIT"),
         ("payload", .vObj [("runId", rid), ("inputs", inp),
                            ("context", ctx), ("renderMode", rm)])]

/-- A well-formed `BRIXEL_UPDATE_INPUTS` message. -/
def updateMsg (rid inputsVal : JSVal) : JSVal :=
  .vObj [("type", .vStr "BRIXEL_UPDATE_INPUTS"),
         ("payload", .vObj [("runId", rid), ("inputs", inputsVal)])]

/-- A `BRIXEL_DESTROY` message with an arbitrary payload value. -/
def destroyMsg (payload : JSVal) : JSVal :=
  .vObj [("type", .vStr "BRIXEL_DESTROY"), ("payload", payload)]

/-! ### Embedding of `src/executeTask.ts` -/

/-- The development base URL of `getApiBaseUrl`. -/
def devBaseUrl : String := "http://localhost:8000/backoffice/ui-components"

/-- The production base URL of `getApiBaseUrl`. -/
def prodBaseUrl : String := "https://api.brixel.ai/backoffice/ui-components"

/-- `getApiBaseUrl` from `executeTask.ts`.  The hostname is `none` when
`typeof window` is `undefined` (no window, production URL). -/
def getApiBaseUrl (hostname : Option String) : String :=
  match hostname with
  | some h =>
      if h == "localhost" || h == "127.0.0.1" then devBaseUrl else prodBaseUrl
  | none => prodBaseUrl

/-- `ExecuteTaskParams` from `types.ts`; optional string fields are
`none` when absent. -/
structure ExecuteTaskParams where
  taskUuid : String
  inputs : JSVal
  conversationId : Option String
  apiToken : Option String
  apiBaseUrl : Option String

/-- JavaScript truthiness of an optional string parameter (`undefined`
and the empty string are falsy). -/
def truthyOptStr : Option String → Bool
  | none => false
  | some s => s != ""

/-- The `fetch` request as assembled by `executeTask`. -/
structure Request where
  url : String
  method : String
  headers : List (String × String)
  credentials : String
  body : JSVal

/-- The request-construction half of `executeTask`: base-URL
resolution (`apiBaseUrl || getApiBaseUrl()`), the headers record
(`Content-Type` always, `Authorization` for a truthy token,
`x-conversation-id` for a truthy conversation id), the credential mode,
and the JSON body with `task_uuid` and `inputs`. -/
def buildRequest (p : ExecuteTaskParams) (hostname : Option String) :
    Request :=
  let baseUrl :=
    if truthyOptStr p.apiBaseUrl then p.apiBaseUrl.getD ""
    else getApiBaseUrl hostname
  let headers :=
    [("Content-Type", "application/json")]
    ++ (match p.apiToken with
        | some t => if t != "" then [("Authorization", "Bearer " ++ t)] else []
        | none => [])
    ++ (match p.conversationId with
        | some c => if c != "" then [("x-conversation-id", c)] else []
        | none => [])
  { url := baseUrl ++ "/execute_task"
    method := "POST"
    headers := headers
    credentials := if truthyOptStr p.apiToken then "same-origin" else "include"
    body := .vObj [("task_uuid", .vStr p.taskUuid), ("inputs", p.inputs)] }

/-- `error.code / error.message / error.details` of
`ExecuteTaskResponse` (dynamic values: the server body is untyped). -/
structure TaskError where
  code : JSVal
  message : JSVal
  details : JSVal

/-- `ExecuteTaskResponse` from `types.ts`. -/
structure TaskResponse where
  success : Bool
  data : Option JSVal
  error : Option TaskError

/-- Outcome of the `fetch` call as seen by `executeTask`: either the
promise rejects (network-level failure, no response obtained), or a
response with a status arrives and `response.json()` either parses to a
value or rejects. -/
inductive FetchOutcome where
  | networkFailure (desc : String)
  | httpResponse (status : Nat) (body : Except String JSVal)

/-- `response.ok`: status in the inclusive range 200–299. -/
def responseOk (status : Nat) : Bool :=
  decide (200 ≤ status) && decide (status ≤ 299)

/-- Throwing property read `v.k`: a `TypeError` on `null`/`undefined`,
otherwise as `objGet`. -/
def getProp (v : JSVal) (k : String) : Except Thrown JSVal :=
  if isNullish v then
    .error (.err ("Cannot read properties of null or undefined (reading "
                  ++ k ++ ")"))
  else .ok (objGet v k)

/-- The `try` block of `executeTask` after the request is sent: parse
the body, then branch on `response.ok`; the non-ok branch reads
`data.code`, `data.message`, `data.details` (each read throws when
`data` is nullish) and defaults falsy fields. -/
def tryBlock (o : FetchOutcome) : Except Thrown TaskResponse :=
  match o with
  | .networkFailure d => .error (.err d)
  | .httpResponse status body =>
    match body with
    | .error d => .error (.err d)
    | .ok data =>
      if !(responseOk status) then do
        let c ← getProp data "code"
        let m ← getProp data "message"
        let dtl ← getProp data "details"
        .ok { success := false, data := none,
              error := some
                { code := if truthy c then c
                          else .vStr ("HTTP_" ++ toString status),
                  message := if truthy m then m
                             else .vStr ("Request failed with status "
                                         ++ toString status),
                  details := if truthy dtl then dtl else data } }
      else
        .ok { success := true, data := some data, error := none }

/-- `executeTask` from `executeTask.ts` with the network effect
abstracted as a `FetchOutcome`: the `catch` clause turns any thrown
error into the `NETWORK_ERROR` failure result carrying the error
description (the thrown error itself is the `details` value,
represented here by its message). -/
def executeTaskModel (o : FetchOutcome) : TaskResponse :=
  match tryBlock o with
  | .ok r => r
  | .error (.err msg) =>
      { success := false, data := none,
        error := some { code := .vStr "NETWORK_ERROR",
                        message := .vStr msg, details := .vStr msg } }

/-! ### Sequences of terminal calls (for at-most-once completion) -/

/-- One embedding-level call to `complete` or `cancel`. -/
inductive TermCall where
  | completeCall (output : JSVal)
  | cancelCall (reason : JSVal)

/-- Apply one terminal call to the state. -/
def applyCall (s : TaskState) : TermCall → StepResult
  | .completeCall o => complete s o
  | .cancelCall r => cancel s r

/-- Run a sequence of `complete`/`cancel` calls, collecting every
envelope posted to the parent. -/
def runCalls : TaskState → List TermCall → TaskState × List OutMessage
  | s, [] => (s, [])
  | s, c :: rest =>
      let r := applyCall s c
      let next := runCalls r.state rest
      (next.1, r.sent ++ next.2)

/-- The envelope the first successful terminal call posts. -/
def firstEnvelope (rid : JSVal) : TermCall → OutMessage
  | .completeCall o => .complete rid o
  | .cancelCall r => .cancel rid r

/-- The status the first successful terminal call sets. -/
def terminalStatus : TermCall → TaskStatus
  | .completeCall _ => .completed
  | .cancelCall _ => .cancelled

/-- Once `hasCompleted` is set, a terminal call is a strict no-op. -/
theorem applyCall_hasCompleted (s : TaskState) (h : s.hasCompleted = true)
    (c : TermCall) : applyCall s c = ⟨s, [], []⟩ := by
  cases c <;> simp [applyCall, complete, cancel, h]

/-- Once `hasCompleted` is set, a whole sequence of terminal calls is a
strict no-op. -/
theorem runCalls_hasCompleted (s : TaskState) (h : s.hasCompleted = true) :
    ∀ cs : List TermCall, runCalls s cs = (s, []) := by
  intro cs
  induction cs with
  | nil => rfl
  | cons c rest ih => simp [runCalls, applyCall_hasCompleted s h c, ih]

/-! ### Lookup characterization of the object-spread merge -/

/-- Ordered choice of optional values: the first, else the second. -/
def firstSome {α : Type} : Option α → Option α → Option α
  | some v, _ => some v
  | none, b => b

theorem lookupKey_append {α : Type} (l1 l2 : List (String × α))
    (k : String) :
    lookupKey (l1 ++ l2) k = firstSome (lookupKey l1 k) (lookupKey l2 k) := by
  induction l1 with
  | nil => rfl
  | cons kv rest ih =>
      obtain ⟨k0, v0⟩ := kv
      by_cases h : k0 = k
      · simp [lookupKey, h, firstSome]
      · simp [lookupKey, h, ih]

theorem lookupKey_overrideFields (u p : List (String × JSVal)) (k : String) :
    lookupKey (overrideFields u p) k =
      (lookupKey p k).map fun v => (lookupKey u k).getD v := by
  induction p with
  | nil => rfl
  | cons kv rest ih =>
      obtain ⟨k0, v0⟩ := kv
      by_cases h : k0 = k
      · subst h
        simp only [overrideFields, lookupKey, if_pos rfl, Option.map_some]
        cases lookupKey u k0 <;> rfl
      · simp [overrideFields, lookupKey, h, ih]

theorem lookupKey_freshFields (p u : List (String × JSVal)) (k : String)
    (h : lookupKey p k = none) :
    lookupKey (freshFields p u) k = lookupKey u k := by
  induction u with
  | nil => rfl
  | cons kv rest ih =>
      obtain ⟨k1, v1⟩ := kv
      by_cases hk : k1 = k
      · subst hk
        simp [freshFields, List.filter_cons, h, lookupKey]
      · by_cases hp : lookupKey p k1 = none
        · simpa [freshFields, List.filter_cons, hp, lookupKey, hk]
            using ih
        · cases hv : lookupKey p k1 with
          | none => exact absurd hv hp
          | some w =>
              simpa [freshFields, List.filter_cons, hv, lookupKey, hk]
                using ih

/-- The object-spread merge is the shallow merge in which the keys of
the update win and the prior object supplies the rest. -/
theorem lookupKey_mergeFields (p u : List (String × JSVal)) (k : String) :
    lookupKey (mergeFields p u) k =
      firstSome (lookupKey u k) (lookupKey p k) := by
  rw [mergeFields, lookupKey_append, lookupKey_overrideFields]
  cases hp : lookupKey p k with
  | some v => cases hu : lookupKey u k <;> simp [firstSome, Option.getD]
  | none =>
      rw [lookupKey_freshFields p u k hp]
      cases hu : lookupKey u k <;> simp [firstSome]

/-! ### Claim theorems -/

/-- C1.  At-most-once completion: from any state of a Run with
`hasCompleted` false and `runId` set, the first `complete`/`cancel`
call posts exactly one matching COMPLETE/CANCEL envelope and moves
status to `completed`/`cancelled`, and the whole remaining sequence of
`complete`/`cancel` calls posts nothing further and leaves the state of
the first call unchanged. -/
theorem at_most_once_completion (s : TaskState) (h1 : s.hasCompleted = false)
    (h2 : truthy s.runId = true) (c : TermCall) (rest : List TermCall) :
    applyCall s c =
      ⟨{ s with hasCompleted := true, status := terminalStatus c },
       [firstEnvelope s.runId c], []⟩
    ∧ runCalls s (c :: rest) =
      ({ s with hasCompleted := true, status := terminalStatus c },
       [firstEnvelope s.runId c]) := by
  have hfirst : applyCall s c =
      ⟨{ s with hasCompleted := true, status := terminalStatus c },
       [firstEnvelope s.runId c], []⟩ := by
    cases c <;>
      simp [applyCall, complete, cancel, h1, h2, terminalStatus, firstEnvelope]
  refine ⟨hfirst, ?_⟩
  have hdone := runCalls_hasCompleted
      { s with hasCompleted := true, status := terminalStatus c } rfl rest
  simp [runCalls, hfirst, hdone]

/-- Witness for C1: in a ready Run `r1`, the trace
`complete 2; complete 3; cancel` posts exactly one envelope,
`COMPLETE(r1, 2)`, and ends completed. -/
theorem at_most_once_completion_witness :
    truthy (JSVal.vStr "r1") = true ∧
    runCalls
        { inputs := .vNull, context := .vNull, status := .ready,
          renderMode := .vNull, runId := .vStr "r1", hasCompleted := false }
        [.completeCall (.vNum 2), .completeCall (.vNum 3),
         .cancelCall .vUndefined] =
      ({ inputs := .vNull, context := .vNull, status := .completed,
         renderMode := .vNull, runId := .vStr "r1", hasCompleted := true },
       [.complete (.vStr "r1") (.vNum 2)]) :=
  ⟨rfl,
   (at_most_once_completion
      { inputs := .vNull, context := .vNull, status := .ready,
        renderMode := .vNull, runId := .vStr "r1", hasCompleted := false }
      rfl rfl (.completeCall (.vNum 2))
      [.completeCall (.vNum 3), .cancelCall .vUndefined]).2⟩

/-- C2.  Re-initialization resets the completion guard: INIT
unconditionally adopts the runId, inputs, context and renderMode of the
message, resets `hasCompleted` to false and sets status `ready` — and
from the re-initialized state, `complete` posts a COMPLETE envelope
tagged with the new (nonempty) runId and sets status `completed`. -/
theorem init_resets_completion_guard (s : TaskState) (rid : String)
    (h : rid ≠ "") (inp ctx rm out : JSVal) :
    handleMessage s (initMsg (.vStr rid) inp ctx rm) =
      .ok ⟨{ s with runId := .vStr rid, inputs := inp, context := ctx,
                    renderMode := rm, status := .ready,
                    hasCompleted := false }, [], []⟩
    ∧ complete { s with runId := .vStr rid, inputs := inp, context := ctx,
                        renderMode := rm, status := .ready,
                        hasCompleted := false } out =
      ⟨{ s with runId := .vStr rid, inputs := inp, context := ctx,
                renderMode := rm, status := .completed,
                hasCompleted := true },
       [.complete (.vStr rid) out], []⟩ := by
  have ht : truthy (JSVal.vStr rid) = true := by
    simp [truthy, h]
  exact ⟨rfl, by simp [complete, ht]⟩

/-- Witness for C2: a completed Run `run1` receives INIT for `run2`;
the machine re-initializes, and `complete 7` then posts
`COMPLETE(run2, 7)`. -/
theorem init_resets_completion_guard_witness :
    "run2" ≠ "" ∧
    handleMessage
        { inputs := .vNull, context := .vNull, status := .completed,
          renderMode := .vNull, runId := .vStr "run1", hasCompleted := true }
        (initMsg (.vStr "run2") (.vNum 1) .vNull (.vStr "interaction")) =
      .ok ⟨{ inputs := .vNum 1, context := .vNull, status := .ready,
             renderMode := .vStr "interaction", runId := .vStr "run2",
             hasCompleted := false }, [], []⟩ ∧
    complete
        { inputs := .vNum 1, context := .vNull, status := .ready,
          renderMode := .vStr "interaction", runId := .vStr "run2",
          hasCompleted := false } (.vNum 7) =
      ⟨{ inputs := .vNum 1, context := .vNull, status := .completed,
         renderMode := .vStr "interaction", runId := .vStr "run2",
         hasCompleted := true },
       [.complete (.vStr "run2") (.vNum 7)], []⟩ :=
  ⟨by decide,
   (init_resets_completion_guard
      { inputs := .vNull, context := .vNull, status := .completed,
        renderMode := .vNull, runId := .vStr "run1", hasCompleted := true }
      "run2" (by decide) (.vNum 1) .vNull (.vStr "interaction") (.vNum 7)).1,
   (init_resets_completion_guard
      { inputs := .vNull, context := .vNull, status := .completed,
        renderMode := .vNull, runId := .vStr "run1", hasCompleted := true }
      "run2" (by decide) (.vNum 1) .vNull (.vStr "interaction") (.vNum 7)).2⟩

/-- C3.  Partial input merge: on UPDATE_INPUTS with an object payload,
when prior inputs are an object the new inputs are their object-spread
merge with the payload — which, key by key, takes the payload value
where present and the prior value otherwise —, and when no prior inputs
exist (`null`) the payload becomes the full inputs value; in both cases
only `inputs` changes, the input-update callback receives the raw
partial payload, and nothing is posted. -/
theorem update_inputs_shallow_merge (s : TaskState) (rid : JSVal)
    (p u : List (String × JSVal)) :
    (s.inputs = .vObj p →
       handleMessage s (updateMsg rid (.vObj u)) =
         .ok ⟨{ s with inputs := .vObj (mergeFields p u) }, [],
              [.inputsUpdate (.vObj u)]⟩
       ∧ ∀ k, lookupKey (mergeFields p u) k =
           firstSome (lookupKey u k) (lookupKey p k))
    ∧ (s.inputs = .vNull →
       handleMessage s (updateMsg rid (.vObj u)) =
         .ok ⟨{ s with inputs := .vObj u }, [],
              [.inputsUpdate (.vObj u)]⟩) := by
  have key : handleMessage s (updateMsg rid (.vObj u)) =
      .ok ⟨{ s with inputs :=
              if truthy s.inputs then spreadMerge s.inputs (.vObj u)
              else .vObj u },
           [], [.inputsUpdate (.vObj u)]⟩ := rfl
  constructor
  · intro hp
    refine ⟨?_, fun k => lookupKey_mergeFields p u k⟩
    rw [key, hp]
    simp [truthy, spreadMerge, ownFields]
  · intro hp
    rw [key, hp]
    simp [truthy]

/-- Witness for C3: inputs `a=1, b=2` updated with `b=3` become
`a=1, b=3`; with no prior inputs, the payload `x=9` becomes the full
inputs value. -/
theorem update_inputs_shallow_merge_witness :
    handleMessage
        { inputs := .vObj [("a", .vNum 1), ("b", .vNum 2)],
          context := .vNull, status := .ready, renderMode := .vNull,
          runId := .vStr "r1", hasCompleted := false }
        (updateMsg (.vStr "r1") (.vObj [("b", .vNum 3)])) =
      .ok ⟨{ inputs := .vObj [("a", .vNum 1), ("b", .vNum 3)],
             context := .vNull, status := .ready, renderMode := .vNull,
             runId := .vStr "r1", hasCompleted := false },
           [], [.inputsUpdate (.vObj [("b", .vNum 3)])]⟩ ∧
    handleMessage initialState
        (updateMsg .vUndefined (.vObj [("x", .vNum 9)])) =
      .ok ⟨{ initialState with inputs := .vObj [("x", .vNum 9)] },
           [], [.inputsUpdate (.vObj [("x", .vNum 9)])]⟩ :=
  ⟨((update_inputs_shallow_merge
      { inputs := .vObj [("a", .vNum 1), ("b", .vNum 2)],
        context := .vNull, status := .ready, renderMode := .vNull,
        runId := .vStr "r1", hasCompleted := false }
      (.vStr "r1") [("a", .vNum 1), ("b", .vNum 2)] [("b", .vNum 3)]).1
      rfl).1,
   (update_inputs_shallow_merge initialState .vUndefined []
      [("x", .vNum 9)]).2 rfl⟩

/-- C4 (code evidence).  A structured message whose `type` field is the
number `5` — truthy but not a string — passes the structural guard of
`handleMessage`, which then calls `startsWith` on it and throws a
`TypeError` instead of silently discarding the message. -/
theorem nonstring_type_field_throws :
    handleMessage initialState (.vObj [("type", .vNum 5)]) =
      .error (.err "message.type.startsWith is not a function") := rfl

/-- C5.  Missing-run guards: while `runId` is unset (`null`, as before
any INIT), `complete`, `cancel`, `setHeight` and `log` post no
envelope and leave the state — including `hasCompleted` and
`status` — unchanged. -/
theorem missing_run_guards (s : TaskState) (h : s.runId = .vNull)
    (output reason height data : JSVal) (level message : String) :
    complete s output = ⟨s, [], []⟩
    ∧ cancel s reason = ⟨s, [], []⟩
    ∧ setHeight s height = ⟨s, [], []⟩
    ∧ log s level message data = ⟨s, [], []⟩ := by
  refine ⟨?_, ?_, ?_, ?_⟩ <;>
    cases hc : s.hasCompleted <;>
      simp [complete, cancel, setHeight, log, h, hc, truthy]

/-- Witness for C5: in the initial state every outbound operation is a
strict no-op. -/
theorem missing_run_guards_witness :
    complete initialState (.vNum 1) = ⟨initialState, [], []⟩
    ∧ cancel initialState .vUndefined = ⟨initialState, [], []⟩
    ∧ setHeight initialState (.vNum 300) = ⟨initialState, [], []⟩
    ∧ log initialState "info" "hello" .vUndefined = ⟨initialState, [], []⟩ :=
  missing_run_guards initialState rfl (.vNum 1) .vUndefined (.vNum 300)
    .vUndefined "info" "hello"

/-- C9.  DESTROY frame property: on a DESTROY message the teardown
callback is invoked, the whole session state is returned unchanged, and
no envelope is posted. -/
theorem destroy_invokes_callback_only (s : TaskState) (payload : JSVal) :
    handleMessage s (destroyMsg payload) = .ok ⟨s, [], [.destroy]⟩ := rfl

/-- C10.  UPDATE_INPUTS never checks the payload runId: for every state
and every payload runId value — matching, mismatched, or with no Run
live — the result is the same merge-and-callback step, an expression
independent of the payload runId in which `runId`, `status`, `context`,
`renderMode` and `hasCompleted` are unchanged. -/
theorem update_inputs_ignores_payload_run_id (s : TaskState)
    (rid u : JSVal) :
    handleMessage s (updateMsg rid u) =
      .ok ⟨{ s with inputs :=
              if truthy s.inputs then spreadMerge s.inputs u else u },
           [], [.inputsUpdate u]⟩ := rfl

/-- C6.  Credential routing: the request always carries
`Content-Type: application/json`; a supplied (nonempty) token puts
`Authorization: Bearer token` in the headers and selects the
`same-origin` credential mode; no token selects `include` and emits no
Authorization header; `x-conversation-id` is present with the supplied
id exactly when the conversation id is supplied (truthy). -/
theorem credential_routing (uuid : String) (inputs : JSVal)
    (cid tok base hostname : Option String) :
    lookupKey (buildRequest ⟨uuid, inputs, cid, tok, base⟩ hostname).headers
        "Content-Type" = some "application/json"
    ∧ (∀ t, tok = some t → t ≠ "" →
        lookupKey (buildRequest ⟨uuid, inputs, cid, tok, base⟩
            hostname).headers "Authorization" = some ("Bearer " ++ t)
        ∧ (buildRequest ⟨uuid, inputs, cid, tok, base⟩
            hostname).credentials = "same-origin")
    ∧ (tok = none →
        lookupKey (buildRequest ⟨uuid, inputs, cid, tok, base⟩
            hostname).headers "Authorization" = none
        ∧ (buildRequest ⟨uuid, inputs, cid, tok, base⟩
            hostname).credentials = "include")
    ∧ (∀ c, cid = some c → c ≠ "" →
        lookupKey (buildRequest ⟨uuid, inputs, cid, tok, base⟩
            hostname).headers "x-conversation-id" = some c)
    ∧ (truthyOptStr cid = false →
        lookupKey (buildRequest ⟨uuid, inputs, cid, tok, base⟩
            hostname).headers "x-conversation-id" = none) := by
  refine ⟨rfl, ?_, ?_, ?_, ?_⟩
  · intro t htok ht
    subst htok
    have hbt : (t != "") = true := bne_iff_ne.mpr ht
    exact ⟨by simp [buildRequest, lookupKey, hbt],
           by simp [buildRequest, truthyOptStr, hbt]⟩
  · intro htok
    subst htok
    refine ⟨?_, by simp [buildRequest, truthyOptStr]⟩
    cases cid with
    | none => simp [buildRequest, lookupKey]
    | some c =>
        by_cases hc : (c != "") = true <;>
          simp [buildRequest, lookupKey, hc]
  · intro c hcid hc
    subst hcid
    have hbc : (c != "") = true := bne_iff_ne.mpr hc
    cases tok with
    | none => simp [buildRequest, lookupKey, hbc]
    | some t =>
        by_cases htk : (t != "") = true <;>
          simp [buildRequest, lookupKey, hbc, htk]
  · intro hcid
    cases cid with
    | none =>
        cases tok with
        | none => simp [buildRequest, lookupKey]
        | some t =>
            by_cases htk : (t != "") = true <;>
              simp [buildRequest, lookupKey, htk]
    | some c =>
        have hc : (c != "") = false := by
          simpa [truthyOptStr] using hcid
        cases tok with
        | none => simp [buildRequest, lookupKey, hc]
        | some t =>
            by_cases htk : (t != "") = true <;>
              simp [buildRequest, lookupKey, hc, htk]

/-- Witness for C6: with token `tok` and conversation id `conv-9` the
request has the Bearer header, the conversation header and same-origin
mode; with neither, no Authorization header and include mode. -/
theorem credential_routing_witness :
    lookupKey (buildRequest ⟨"task-1", .vObj [], some "conv-9", some "tok",
        none⟩ (some "app.example.com")).headers "Authorization" =
      some ("Bearer " ++ "tok")
    ∧ (buildRequest ⟨"task-1", .vObj [], some "conv-9", some "tok", none⟩
        (some "app.example.com")).credentials = "same-origin"
    ∧ lookupKey (buildRequest ⟨"task-1", .vObj [], some "conv-9",
        some "tok", none⟩ (some "app.example.com")).headers
        "x-conversation-id" = some "conv-9"
    ∧ lookupKey (buildRequest ⟨"task-2", .vObj [], none, none, none⟩
        (some "app.example.com")).headers "Authorization" = none
    ∧ (buildRequest ⟨"task-2", .vObj [], none, none, none⟩
        (some "app.example.com")).credentials = "include" :=
  ⟨((credential_routing "task-1" (.vObj []) (some "conv-9") (some "tok")
      none (some "app.example.com")).2.1 "tok" rfl (by decide)).1,
   ((credential_routing "task-1" (.vObj []) (some "conv-9") (some "tok")
      none (some "app.example.com")).2.1 "tok" rfl (by decide)).2,
   (credential_routing "task-1" (.vObj []) (some "conv-9") (some "tok")
      none (some "app.example.com")).2.2.2.1 "conv-9" rfl (by decide),
   ((credential_routing "task-2" (.vObj []) none none none
      (some "app.example.com")).2.2.1 rfl).1,
   ((credential_routing "task-2" (.vObj []) none none none
      (some "app.example.com")).2.2.1 rfl).2⟩

/-- C7 (amended).  Failure normalization: every fetch outcome maps to a
structured result; a network-level failure yields the fixed
NETWORK_ERROR code with the captured description; a non-2xx response
whose body parsed to a non-nullish value yields the failure built from
the body with HTTP_status / generic-message defaults; a 2xx response
whose body parsed yields success with the parsed body as data.  (A body
that fails to parse or parses to null takes the catch-all NETWORK_ERROR
path — see the counterexample.) -/
theorem failure_normalization (status : Nat) (data : JSVal) (d : String)
    (hdata : isNullish data = false) :
    (∀ o : FetchOutcome,
        ((executeTaskModel o).success = true
          ∧ (executeTaskModel o).data.isSome
          ∧ (executeTaskModel o).error = none)
        ∨ ((executeTaskModel o).success = false
          ∧ (executeTaskModel o).data = none
          ∧ (executeTaskModel o).error.isSome))
    ∧ executeTaskModel (.networkFailure d) =
        ⟨false, none, some ⟨.vStr "NETWORK_ERROR", .vStr d, .vStr d⟩⟩
    ∧ (responseOk status = false →
        executeTaskModel (.httpResponse status (.ok data)) =
          ⟨false, none, some
            ⟨if truthy (objGet data "code") then objGet data "code"
             else .vStr ("HTTP_" ++ toString status),
             if truthy (objGet data "message") then objGet data "message"
             else .vStr ("Request failed with status " ++ toString status),
             if truthy (objGet data "details") then objGet data "details"
             else data⟩⟩)
    ∧ (responseOk status = true →
        executeTaskModel (.httpResponse status (.ok data)) =
          ⟨true, some data, none⟩) := by
  refine ⟨?_, rfl, ?_, ?_⟩
  · intro o
    cases o with
    | networkFailure d0 => right; exact ⟨rfl, rfl, rfl⟩
    | httpResponse st body =>
        cases body with
        | error d0 => right; exact ⟨rfl, rfl, rfl⟩
        | ok dt =>
            by_cases hok : responseOk st = true
            · left
              simp [executeTaskModel, tryBlock, hok]
            · right
              have hok2 : responseOk st = false := by
                simpa using hok
              cases hnull : isNullish dt with
              | true =>
                  simp only [executeTaskModel, tryBlock, hok2, getProp,
                    hnull]
                  exact ⟨rfl, rfl, rfl⟩
              | false =>
                  simp only [executeTaskModel, tryBlock, hok2, getProp,
                    hnull]
                  exact ⟨rfl, rfl, rfl⟩
  · intro hok
    simp only [executeTaskModel, tryBlock, hok, getProp, hdata]
    rfl
  · intro hok
    simp [executeTaskModel, tryBlock, hok]

/-- Witness for C7: an HTTP 404 with body containing only
`message = "not found"` normalizes to the HTTP_404 failure with that
message and the whole body as details; a network failure normalizes to
the NETWORK_ERROR failure. -/
theorem failure_normalization_witness :
    isNullish (JSVal.vObj [("message", .vStr "not found")]) = false
    ∧ responseOk 404 = false
    ∧ executeTaskModel (.httpResponse 404 (.ok (.vObj
        [("message", .vStr "not found")]))) =
      ⟨false, none, some ⟨.vStr "HTTP_404", .vStr "not found",
        .vObj [("message", .vStr "not found")]⟩⟩
    ∧ executeTaskModel (.networkFailure "connection refused") =
      ⟨false, none, some ⟨.vStr "NETWORK_ERROR",
        .vStr "connection refused", .vStr "connection refused"⟩⟩ :=
  ⟨rfl, rfl,
   (failure_normalization 404 (.vObj [("message", .vStr "not found")])
      "connection refused" rfl).2.2.1 rfl,
   (failure_normalization 404 (.vObj [("message", .vStr "not found")])
      "connection refused" rfl).2.1⟩

/-- Counterexample to C7 as stated: an HTTP 404 whose JSON body is
`null` is not normalized to an HTTP_404 failure — reading `data.code`
throws, the catch-all captures the throw, and the result carries the
fixed NETWORK_ERROR code instead. -/
theorem non2xx_null_body_yields_network_error :
    (executeTaskModel (.httpResponse 404 (.ok .vNull))).error.map
        TaskError.code = some (.vStr "NETWORK_ERROR")
    ∧ (executeTaskModel (.httpResponse 404 (.ok .vNull))).error.map
        TaskError.code ≠ some (.vStr "HTTP_404") := by
  refine ⟨rfl, ?_⟩
  intro h
  have h1 : JSVal.vStr "NETWORK_ERROR" = JSVal.vStr "HTTP_404" :=
    Option.some.inj h
  exact absurd (JSVal.vStr.inj h1) (by decide)

/-- C8.  Base URL selection: a supplied (nonempty) override wins for
every hostname; with no override, hostnames `localhost` and `127.0.0.1`
select the development base URL and every other hostname the production
base URL; the request URL is the base URL followed by
`/execute_task`. -/
theorem base_url_selection (p : ExecuteTaskParams)
    (hostname : Option String) :
    (∀ b, p.apiBaseUrl = some b → b ≠ "" →
        (buildRequest p hostname).url = b ++ "/execute_task")
    ∧ (p.apiBaseUrl = none → hostname = some "localhost" →
        (buildRequest p hostname).url = devBaseUrl ++ "/execute_task")
    ∧ (p.apiBaseUrl = none → hostname = some "127.0.0.1" →
        (buildRequest p hostname).url = devBaseUrl ++ "/execute_task")
    ∧ (∀ h, p.apiBaseUrl = none → hostname = some h → h ≠ "localhost" →
        h ≠ "127.0.0.1" →
        (buildRequest p hostname).url = prodBaseUrl ++ "/execute_task")
    ∧ devBaseUrl = "http://localhost:8000/backoffice/ui-components"
    ∧ prodBaseUrl = "https://api.brixel.ai/backoffice/ui-components" := by
  refine ⟨?_, ?_, ?_, ?_, rfl, rfl⟩
  · intro b hb hne
    have hbb : (b != "") = true := bne_iff_ne.mpr hne
    simp [buildRequest, truthyOptStr, hb, hbb]
  · intro hb hh
    subst hh
    simp [buildRequest, truthyOptStr, hb, getApiBaseUrl]
  · intro hb hh
    subst hh
    simp [buildRequest, truthyOptStr, hb, getApiBaseUrl]
  · intro h hb hh h1 h2
    subst hh
    have hb1 : (h == "localhost") = false := beq_eq_false_iff_ne.mpr h1
    have hb2 : (h == "127.0.0.1") = false := beq_eq_false_iff_ne.mpr h2
    simp [buildRequest, truthyOptStr, hb, getApiBaseUrl, hb1, hb2]

/-- Witness for C8: an explicit override wins on localhost; with no
override, `localhost` resolves to the development URL and
`app.example.com` to the production URL. -/
theorem base_url_selection_witness :
    (buildRequest ⟨"t", .vObj [], none, none,
        some "https://custom.example/api"⟩ (some "localhost")).url =
      "https://custom.example/api" ++ "/execute_task"
    ∧ (buildRequest ⟨"t", .vObj [], none, none, none⟩
        (some "localhost")).url = devBaseUrl ++ "/execute_task"
    ∧ (buildRequest ⟨"t", .vObj [], none, none, none⟩
        (some "app.example.com")).url = prodBaseUrl ++ "/execute_task" :=
  ⟨(base_url_selection ⟨"t", .vObj [], none, none,
      some "https://custom.example/api"⟩ (some "localhost")).1
      "https://custom.example/api" rfl (by decide),
   (base_url_selection ⟨"t", .vObj [], none, none, none⟩
      (some "localhost")).2.1 rfl rfl,
   (base_url_selection ⟨"t", .vObj [], none, none, none⟩
      (some "app.example.com")).2.2.2.1 "app.example.com" rfl rfl
      (by decide) (by decide)⟩

end BrixelSpec
